import Mathlib

/-!
Shallow embedding of the real-time collaborative editing core of the
quanta repository: the circuit document model and the circuit store
reducers (frontend/src/stores/circuitStore.ts), the circuit grid editor
(frontend/src/components/circuit/CircuitBuilder.tsx), and the
collaboration store (collabStore: room lifecycle, WebSocket message
handler, presence and chat state).

JavaScript numbers that only ever hold integral values (qubit indices,
time steps, qubit counts, HTTP status codes, cursor coordinates) are
embedded as `Int`.  Values the core treats as opaque (timestamps from
`new Date().toISOString()`, ids from `generateId()`, simulation results)
are embedded as `String` parameters supplied by the environment, or as
`Option Unit` where only presence/absence matters.
-/

namespace Quanta

/-- The gate vocabulary of frontend/src/types/quantum.ts (`GateType`). -/
inductive GateType where
  | H | X | Y | Z | S | T | RX | RY | RZ
  | CNOT | CZ | SWAP | TOFFOLI | MEASURE
deriving DecidableEq

/-- A placed gate (interface `Gate` in types/quantum.ts).  `parameter`
is a rotation angle the collaboration core never computes with; it is
embedded opaquely as an `Int` payload. -/
structure Gate where
  id : String
  type : GateType
  qubit : Int
  controlQubit : Option Int := none
  controlQubit2 : Option Int := none
  parameter : Option Int := none
  step : Int
deriving DecidableEq

/-- The circuit document (interface `QuantumCircuit` in types/quantum.ts). -/
structure QuantumCircuit where
  id : String
  name : String
  description : Option String := none
  numQubits : Int
  gates : List Gate
  createdAt : String
  updatedAt : String
deriving DecidableEq

/-- Payload of `addGate` in circuitStore.ts: a gate without an id
(`Omit<Gate, 'id'>`). -/
structure GateInput where
  type : GateType
  qubit : Int
  controlQubit : Option Int := none
  controlQubit2 : Option Int := none
  parameter : Option Int := none
  step : Int
deriving DecidableEq

/-- `{ ...gate, id }`: the gate record built by `addGate` from its input
and the freshly generated id. -/
def GateInput.withId (g : GateInput) (id : String) : Gate :=
  { id := id, type := g.type, qubit := g.qubit,
    controlQubit := g.controlQubit, controlQubit2 := g.controlQubit2,
    parameter := g.parameter, step := g.step }

/-- `addGate` of circuitStore.ts on the circuit value: appends
`{ ...gate, id: generateId() }` to `gates` and stamps `updatedAt`.
`generateId()` draws from `Math.random()`; its output is passed in as
`freshId`, and the current time as `now`. -/
def addGate (gate : GateInput) (freshId now : String)
    (c : QuantumCircuit) : QuantumCircuit :=
  { c with gates := c.gates ++ [gate.withId freshId], updatedAt := now }

/-- `removeGate` of circuitStore.ts: `gates.filter((g) => g.id !== gateId)`. -/
def removeGate (gateId now : String) (c : QuantumCircuit) : QuantumCircuit :=
  { c with
    gates := c.gates.filter (fun g => g.id != gateId)
    updatedAt := now }

/-- `updateGate` of circuitStore.ts at the call shape used by the
`gate_moved` handler: `updateGate(gate_id, { qubit, step })`, i.e. map
`g.id === gateId ? { ...g, qubit, step } : g` over the gate list. -/
def updateGateQubitStep (gateId : String) (qubit step : Int) (now : String)
    (c : QuantumCircuit) : QuantumCircuit :=
  { c with
    gates := c.gates.map (fun g =>
      if g.id == gateId then { g with qubit := qubit, step := step } else g)
    updatedAt := now }

/-- The per-gate test of `setNumQubits` for an optional control qubit:
`g.controlQubit === undefined || g.controlQubit < clampedN`. -/
def optQubitBelow (clampedN : Int) : Option Int → Bool
  | none => true
  | some q => q < clampedN

/-- `setNumQubits` of circuitStore.ts: clamps the requested count with
`Math.max(1, Math.min(16, n))` and removes gates that reference qubits
beyond the new limit. -/
def setNumQubits (n : Int) (now : String) (c : QuantumCircuit) : QuantumCircuit :=
  let clampedN := max 1 (min 16 n)
  { c with
    numQubits := clampedN
    gates := c.gates.filter (fun g =>
      decide (g.qubit < clampedN) &&
      optQubitBelow clampedN g.controlQubit &&
      optQubitBelow clampedN g.controlQubit2)
    updatedAt := now }

/-- `getGateAt` of CircuitBuilder.tsx:
`gates.find((g) => g.qubit === qubit && g.step === step)`. -/
def getGateAt (gates : List Gate) (qubit step : Int) : Option Gate :=
  gates.find? (fun g => g.qubit == qubit && g.step == step)

/-- The qubit lines a gate references: its target plus any control
qubits that are present. -/
def gateRefs (g : Gate) : List Int :=
  g.qubit :: (g.controlQubit.toList ++ g.controlQubit2.toList)

/-- A gate references only qubit lines strictly below `n`. -/
def referencesBelow (g : Gate) (n : Int) : Bool :=
  (gateRefs g).all (fun q => decide (q < n))

/-- A cursor position (interface `Cursor` in collabStore). -/
structure Cursor where
  x : Int
  y : Int
  qubit : Option Int := none
  step : Option Int := none
deriving DecidableEq

/-- A roster entry (interface `Participant` in collabStore). -/
structure Participant where
  user_id : String
  username : String
  color : String
  cursor : Option Cursor := none
  joined_at : String
deriving DecidableEq

/-- A chat entry (interface `ChatMessage` in collabStore). -/
structure ChatMessage where
  user_id : String
  message : String
  timestamp : String
deriving DecidableEq

/-- The combined client state: the collaboration store's fields plus the
circuit store's document state that the message handler mutates through
`useCircuitStore.getState()`.  The WebSocket object is embedded as an
opaque connection handle, a simulation result as an opaque token. -/
structure ClientState where
  isConnected : Bool
  roomId : Option String
  userId : Option String
  username : String
  participants : List Participant
  chatMessages : List ChatMessage
  socket : Option Nat
  circuit : QuantumCircuit
  simulationResult : Option Unit
deriving DecidableEq

/-- The gate descriptor read out of a `gate_added` message:
`data.gate as { type; qubit; step }`.  The wire object may also carry the
author's gate id (`sendGateAdd` accepts `id?: string`), which the handler
never reads. -/
structure WireGate where
  type : GateType
  qubit : Int
  step : Int
  id : Option String := none
deriving DecidableEq

/-- The circuit payload of a `circuit_updated` message:
`{ numQubits; gates; name? }`. -/
structure WireCircuit where
  numQubits : Int
  gates : List Gate
  name : Option String := none
deriving DecidableEq

/-- The server-to-client messages dispatched by `handleMessage` in
collabStore (the `switch (data.type)` cases). -/
inductive ServerMessage where
  | room_state (participants : List Participant)
  | participant_joined (participant : Participant)
  | participant_left (user_id : String)
  | cursor_update (user_id : String) (cursor : Cursor)
  | gate_added (gate : WireGate)
  | gate_removed (gate_id : String)
  | gate_moved (gate_id : String) (qubit step : Int)
  | circuit_updated (circuit : WireCircuit)
  | qubit_count_changed (num_qubits : Int)
  | chat_message (user_id message timestamp : String)
deriving DecidableEq

/-- JavaScript `x || d` on an optional string: `undefined`/`null` and the
empty string are falsy and yield the default. -/
def jsStrOr (v : Option String) (d : String) : String :=
  match v with
  | none => d
  | some x => if x = "" then d else x

/-- Values the JavaScript runtime supplies during one message
application: the output `generateId()` would produce next and the
current `new Date().toISOString()`. -/
structure Env where
  freshId : String
  now : String

/-- `handleMessage` of collabStore: the client-side reducer applied to
every incoming WebSocket message.  Presence cases update only the
participant list; document cases call the circuit store's actions
(`addGate`, `removeGate`, `updateGate`, `loadCircuit`, `setNumQubits`),
each of which also clears `simulationResult`; `chat_message` appends to
the chat log. -/
def handleMessage (env : Env) (msg : ServerMessage) (s : ClientState) :
    ClientState :=
  match msg with
  | .room_state ps => { s with participants := ps }
  | .participant_joined p => { s with participants := s.participants ++ [p] }
  | .participant_left uid =>
      { s with
        participants := s.participants.filter (fun p => p.user_id != uid) }
  | .cursor_update uid cur =>
      { s with
        participants := s.participants.map (fun p =>
          if p.user_id == uid then { p with cursor := some cur } else p) }
  | .gate_added wg =>
      { s with
        circuit := addGate { type := wg.type, qubit := wg.qubit, step := wg.step }
          env.freshId env.now s.circuit
        simulationResult := none }
  | .gate_removed gid =>
      { s with
        circuit := removeGate gid env.now s.circuit
        simulationResult := none }
  | .gate_moved gid q st =>
      { s with
        circuit := updateGateQubitStep gid q st env.now s.circuit
        simulationResult := none }
  | .circuit_updated wc =>
      { s with
        circuit := { s.circuit with
          id := jsStrOr s.roomId "shared"
          name := jsStrOr wc.name "Shared Circuit"
          numQubits := wc.numQubits
          gates := wc.gates
          updatedAt := env.now }
        simulationResult := none }
  | .qubit_count_changed n =>
      { s with
        circuit := setNumQubits n env.now s.circuit
        simulationResult := none }
  | .chat_message uid m ts =>
      { s with chatMessages := s.chatMessages ++ [⟨uid, m, ts⟩] }

/-- The four roster/presence message kinds of the protocol. -/
def ServerMessage.isPresence : ServerMessage → Bool
  | .room_state _ => true
  | .participant_joined _ => true
  | .participant_left _ => true
  | .cursor_update _ _ => true
  | _ => false

/-- Replay of a received message sequence through `handleMessage`; each
step consumes the runtime-supplied fresh id and timestamp of that
moment. -/
def applyMessages (steps : List (Env × ServerMessage)) (s : ClientState) :
    ClientState :=
  steps.foldl (fun st p => handleMessage p.1 p.2 st) s

/-- `leaveRoom` of collabStore: the collaboration fields after the reset
(`isConnected: false, roomId: null, userId: null, participants: [],
chatMessages: [], socket: null`); the circuit store is not touched. -/
def leaveRoom (s : ClientState) : ClientState :=
  { s with
    isConnected := false
    roomId := none
    userId := none
    participants := []
    chatMessages := []
    socket := none }

/-- The connection handles `leaveRoom` closes: `if (socket) socket.close()`. -/
def leaveRoomClosedSockets (s : ClientState) : List Nat :=
  s.socket.toList

/-- Client-to-server messages the collab store's send helpers write to
the socket. -/
inductive OutMessage where
  | cursor_move (cursor : Cursor)
  | gate_add (gate : WireGate)
  | gate_remove (gate_id : String)
  | gate_move (gate_id : String) (qubit step : Int)
  | circuit_update (circuit : WireCircuit)
  | qubit_count_change (num_qubits : Int)
  | chat_message (message : String)
deriving DecidableEq

/-- `sendGateAdd` of collabStore: writes a `gate_add` message when a
socket exists and the client is connected, otherwise nothing. -/
def sendGateAdd (s : ClientState) (gate : WireGate) : List OutMessage :=
  if s.socket.isSome && s.isConnected then [.gate_add gate] else []

/-- `sendGateRemove` of collabStore. -/
def sendGateRemove (s : ClientState) (gateId : String) : List OutMessage :=
  if s.socket.isSome && s.isConnected then [.gate_remove gateId] else []

/-- One step of the circuit editor's click handler, as an effect: a
local circuit-store mutation or a network send. -/
inductive EditEffect where
  | localRemoveGate (gateId : String)
  | localAddGate (gate : GateInput)
  | send (m : OutMessage)
deriving DecidableEq

/-- Whether an edit effect is a network send. -/
def EditEffect.isSend : EditEffect → Bool
  | .send _ => true
  | _ => false

/-- `handleCellClick` of CircuitBuilder.tsx, as the ordered list of
effects its body performs: if the cell holds a gate, `removeGate` it;
else if a palette gate is selected, `addGate` it; nothing else — in
particular the body invokes none of the collab store's send helpers. -/
def handleCellClick (selectedGate : Option GateType) (qubit step : Int)
    (gates : List Gate) : List EditEffect :=
  match getGateAt gates qubit step with
  | some existingGate => [.localRemoveGate existingGate.id]
  | none =>
    match selectedGate with
    | some sel =>
        [.localAddGate { type := sel, qubit := qubit, step := step }]
    | none => []

/-- Application of one edit effect to the client state: the local
mutations run the circuit store's actions; a send leaves the local
state unchanged. -/
def applyEditEffect (env : Env) (e : EditEffect) (s : ClientState) :
    ClientState :=
  match e with
  | .localRemoveGate gid =>
      { s with
        circuit := removeGate gid env.now s.circuit
        simulationResult := none }
  | .localAddGate g =>
      { s with
        circuit := addGate g env.freshId env.now s.circuit
        simulationResult := none }
  | .send _ => s

/-- An HTTP response as the join code observes it: a status and an
opaque body.  `fetch`'s `response.ok` is true exactly when the status is
in 200..299. -/
structure HttpResponse where
  status : Int
  body : String
deriving DecidableEq

/-- `response.ok` for the embedded response. -/
def respOk (r : HttpResponse) : Bool :=
  200 ≤ r.status && r.status < 300

/-- The failure path of `joinRoom` in collabStore:
`if (!response.ok) throw new Error('Room not found')` — the thrown error
message for any failing response, `none` on success. -/
def joinRoomError (resp : HttpResponse) : Option String :=
  if respOk resp then none else some "Room not found"

/-- The error the CollabPanel's `handleJoin` displays: its catch block
sets the message `'Room not found'` whenever `joinRoom` threw, ignoring
the thrown error's content. -/
def handleJoinSurfacedError (resp : HttpResponse) : Option String :=
  (joinRoomError resp).map (fun _ => "Room not found")

/-- `createEmptyCircuit` of circuitStore.ts, with the runtime-supplied
id and creation time made explicit. -/
def createEmptyCircuit (freshId now : String) : QuantumCircuit :=
  { id := freshId
    name := "Untitled Circuit"
    description := some ""
    numQubits := 4
    gates := []
    createdAt := now
    updatedAt := now }

/-- A concrete connected client state used by the closed evaluations. -/
def sampleState : ClientState :=
  { isConnected := true
    roomId := some "AB12"
    userId := some "p2"
    username := "Anonymous"
    participants := []
    chatMessages := []
    socket := some 0
    circuit := createEmptyCircuit "c0" "t0"
    simulationResult := none }

/-- A gate occupying qubit 0, step 0, used by the closed evaluations. -/
def sampleGate : Gate :=
  { id := "g1a2b3c", type := .H, qubit := 0, step := 0 }

/-- `sampleState` with one placed gate, used by the closed evaluations. -/
def sampleStateWithGate : ClientState :=
  { sampleState with
    circuit := { sampleState.circuit with gates := [sampleGate] } }

/-- Only the participant list of `t` may differ from `s`: circuit
document, simulation cache, connection fields, chat log and socket all
agree. -/
def onlyParticipantsChanged (s t : ClientState) : Prop :=
  t.circuit = s.circuit ∧ t.simulationResult = s.simulationResult ∧
  t.isConnected = s.isConnected ∧ t.roomId = s.roomId ∧
  t.userId = s.userId ∧ t.username = s.username ∧
  t.chatMessages = s.chatMessages ∧ t.socket = s.socket

/-- The gate record the `gate_added` handler appends: the wire gate's
type, qubit and step, with the locally generated id — never the id the
authoring client stored. -/
def remoteAddedGate (env : Env) (wg : WireGate) : Gate :=
  GateInput.withId { type := wg.type, qubit := wg.qubit, step := wg.step }
    env.freshId

/-- The per-gate filter of `setNumQubits` coincides with "every
referenced qubit line is strictly below the clamped count". -/
theorem setNumQubits_pred_eq (clampedN : Int) (g : Gate) :
    (decide (g.qubit < clampedN) &&
      optQubitBelow clampedN g.controlQubit &&
      optQubitBelow clampedN g.controlQubit2) = referencesBelow g clampedN := by
  rcases g with ⟨i, t, q, cq, cq2, p, st⟩
  cases cq <;> cases cq2 <;>
    simp [optQubitBelow, referencesBelow, gateRefs, Bool.and_assoc]

/-- C10: `setNumQubits(n)` silently clamps: the stored qubit count
equals `max(1, min(16, n))` for every integer `n`, with no error path,
and therefore always lies between 1 and 16 inclusive. -/
theorem c10_setNumQubits_clamps (c : QuantumCircuit) (n : Int) (now : String) :
    (setNumQubits n now c).numQubits = max 1 (min 16 n) ∧
    1 ≤ (setNumQubits n now c).numQubits ∧
    (setNumQubits n now c).numQubits ≤ 16 :=
  ⟨rfl, le_max_left 1 (min 16 n),
    max_le (by norm_num) (min_le_left 16 n)⟩

/-- C3: removing a gate id that occurs nowhere in the document's gate
list leaves the gate list unchanged, both through the store's
`removeGate` and through the remote `gate_removed` handler, and there is
no error path. -/
theorem c3_gate_remove_absent_id_noop (env : Env) (s : ClientState)
    (gid : String)
    (h : s.circuit.gates.all (fun g => g.id != gid) = true) :
    (removeGate gid env.now s.circuit).gates = s.circuit.gates ∧
    (handleMessage env (.gate_removed gid) s).circuit.gates =
      s.circuit.gates := by
  have hf : (removeGate gid env.now s.circuit).gates = s.circuit.gates := by
    simp only [removeGate]
    exact List.filter_eq_self.mpr (List.all_eq_true.mp h)
  exact ⟨hf, hf⟩

/-- C3 witness: removing the unknown id `"zz"` from a one-gate document
leaves its gate list intact. -/
theorem c3_gate_remove_absent_id_noop_witness :
    sampleStateWithGate.circuit.gates.all (fun g => g.id != "zz") = true ∧
    (removeGate "zz" (Env.mk "f1r2e3s" "t9").now
        sampleStateWithGate.circuit).gates =
      sampleStateWithGate.circuit.gates ∧
    (handleMessage (Env.mk "f1r2e3s" "t9") (.gate_removed "zz")
        sampleStateWithGate).circuit.gates =
      sampleStateWithGate.circuit.gates :=
  ⟨by decide, c3_gate_remove_absent_id_noop (Env.mk "f1r2e3s" "t9")
    sampleStateWithGate "zz" (by decide)⟩

/-- C4: after `setNumQubits(n)`, every remaining gate references only
qubit lines (target and controls) strictly below the resulting qubit
count, and the surviving gates are exactly the original gates filtered
by that in-range condition, in order. -/
theorem c4_setNumQubits_drops_out_of_range (c : QuantumCircuit) (n : Int)
    (now : String) :
    ((setNumQubits n now c).gates.all (fun g =>
      referencesBelow g (setNumQubits n now c).numQubits)) = true ∧
    (setNumQubits n now c).gates =
      c.gates.filter (fun g =>
        referencesBelow g (setNumQubits n now c).numQubits) := by
  have hfilter : (setNumQubits n now c).gates =
      c.gates.filter (fun g => referencesBelow g (max 1 (min 16 n))) := by
    simp only [setNumQubits]
    exact List.filter_congr (fun g _ => setNumQubits_pred_eq _ g)
  constructor
  · rw [List.all_eq_true]
    intro g hg
    rw [hfilter] at hg
    exact (List.mem_filter.mp hg).2
  · exact hfilter

/-- C7: `leaveRoom` resets every collaboration field to its disconnected
default, closes the open socket if there is one, and leaves the circuit
document (and simulation cache) untouched. -/
theorem c7_leaveRoom_resets_collab_keeps_document (s : ClientState) :
    (leaveRoom s).isConnected = false ∧
    (leaveRoom s).roomId = none ∧
    (leaveRoom s).userId = none ∧
    (leaveRoom s).participants = [] ∧
    (leaveRoom s).chatMessages = [] ∧
    (leaveRoom s).socket = none ∧
    (leaveRoom s).circuit = s.circuit ∧
    (leaveRoom s).simulationResult = s.simulationResult ∧
    leaveRoomClosedSockets s = s.socket.toList := by
  simp [leaveRoom, leaveRoomClosedSockets]

/-- C6: every presence/roster message (`room_state`,
`participant_joined`, `participant_left`, `cursor_update`) leaves the
circuit document replica — and every other field except the participant
list — unchanged. -/
theorem c6_presence_messages_never_touch_document (env : Env)
    (msg : ServerMessage) (s : ClientState) (h : msg.isPresence = true) :
    onlyParticipantsChanged s (handleMessage env msg s) := by
  cases msg <;>
    simp_all [handleMessage, ServerMessage.isPresence,
      onlyParticipantsChanged]

/-- C6 witness: a concrete `participant_left` message leaves everything
but the roster of the sample state unchanged. -/
theorem c6_presence_messages_never_touch_document_witness :
    (ServerMessage.participant_left "p1").isPresence = true ∧
    onlyParticipantsChanged sampleStateWithGate
      (handleMessage (Env.mk "f1r2e3s" "t9")
        (.participant_left "p1") sampleStateWithGate) :=
  ⟨by decide, c6_presence_messages_never_touch_document
    (Env.mk "f1r2e3s" "t9") (.participant_left "p1")
    sampleStateWithGate (by decide)⟩

/-- C2 counterexample: operation A places an H gate at (qubit 0, step 0)
and operation B, applied later through `addGate`, places an X gate at
the same cell; the gate the document exposes at that cell (`getGateAt`)
is A's gate, not B's. -/
theorem c2_later_add_does_not_win_counterexample :
    getGateAt (addGate { type := .X, qubit := 0, step := 0 } "idB" "t2"
      (addGate { type := .H, qubit := 0, step := 0 } "idA" "t1"
        (createEmptyCircuit "c0" "t0"))).gates 0 0 =
      some (GateInput.withId { type := .H, qubit := 0, step := 0 } "idA") ∧
    GateInput.withId { type := .H, qubit := 0, step := 0 } "idA" ≠
      GateInput.withId { type := .X, qubit := 0, step := 0 } "idB" := by
  decide

/-- C2 amended: when a cell is initially empty and operation A then
operation B place gates there through `addGate`, both gates remain in
the document and the gate exposed at the cell is A's — the earlier
write wins at the observation level, because `addGate` appends and
`getGateAt` returns the first match. -/
theorem c2_amended_earlier_add_wins_at_cell (c : QuantumCircuit)
    (gA gB : GateInput) (idA idB t1 t2 : String) (q st : Int)
    (hempty : getGateAt c.gates q st = none)
    (hAq : gA.qubit = q) (hAs : gA.step = st)
    (hBq : gB.qubit = q) (hBs : gB.step = st) :
    getGateAt (addGate gB idB t2 (addGate gA idA t1 c)).gates q st =
      some (gA.withId idA) ∧
    gA.withId idA ∈ (addGate gB idB t2 (addGate gA idA t1 c)).gates ∧
    gB.withId idB ∈ (addGate gB idB t2 (addGate gA idA t1 c)).gates := by
  refine ⟨?_, ?_, ?_⟩
  · simp only [addGate, getGateAt] at hempty ⊢
    simp [List.find?_append, hempty, GateInput.withId, hAq, hAs]
  · simp [addGate]
  · simp [addGate]

/-- C2 amended witness: concrete H-then-X collision at (0, 0) on the
empty document. -/
theorem c2_amended_earlier_add_wins_at_cell_witness :
    getGateAt (createEmptyCircuit "c0" "t0").gates 0 0 = none ∧
    (getGateAt (addGate { type := .X, qubit := 0, step := 0 } "idB" "t2"
        (addGate { type := .H, qubit := 0, step := 0 } "idA" "t1"
          (createEmptyCircuit "c0" "t0"))).gates 0 0 =
      some (GateInput.withId { type := .H, qubit := 0, step := 0 } "idA") ∧
    GateInput.withId { type := .H, qubit := 0, step := 0 } "idA" ∈
      (addGate { type := .X, qubit := 0, step := 0 } "idB" "t2"
        (addGate { type := .H, qubit := 0, step := 0 } "idA" "t1"
          (createEmptyCircuit "c0" "t0"))).gates ∧
    GateInput.withId { type := .X, qubit := 0, step := 0 } "idB" ∈
      (addGate { type := .X, qubit := 0, step := 0 } "idB" "t2"
        (addGate { type := .H, qubit := 0, step := 0 } "idA" "t1"
          (createEmptyCircuit "c0" "t0"))).gates) :=
  ⟨by decide, c2_amended_earlier_add_wins_at_cell
    (createEmptyCircuit "c0" "t0")
    { type := .H, qubit := 0, step := 0 }
    { type := .X, qubit := 0, step := 0 }
    "idA" "idB" "t1" "t2" 0 0 (by decide) rfl rfl rfl rfl⟩

/-- C1: two replicas that start from the identical state and apply the
identical broadcast `gate_added` message through `handleMessage` do not
end bit-identical: each runs `addGate`, whose id comes from the local
`generateId()`, so the placed gate's id is the replica's own fresh id
and the circuit documents differ. -/
theorem c1_same_broadcast_sequence_replicas_differ :
    (applyMessages [(Env.mk "aaaaaaa" "t1",
        .gate_added { type := .H, qubit := 0, step := 0, id := some "x7k9p2q" })]
      sampleState).circuit ≠
    (applyMessages [(Env.mk "bbbbbbb" "t1",
        .gate_added { type := .H, qubit := 0, step := 0, id := some "x7k9p2q" })]
      sampleState).circuit ∧
    (applyMessages [(Env.mk "aaaaaaa" "t1",
        .gate_added { type := .H, qubit := 0, step := 0, id := some "x7k9p2q" })]
      sampleState).circuit.gates.map Gate.id = ["aaaaaaa"] ∧
    (applyMessages [(Env.mk "bbbbbbb" "t1",
        .gate_added { type := .H, qubit := 0, step := 0, id := some "x7k9p2q" })]
      sampleState).circuit.gates.map Gate.id = ["bbbbbbb"] := by
  decide

/-- C9: the `gate_added` handler appends the wire gate with the locally
generated fresh id; the id carried on the wire is ignored entirely, and
whenever the local fresh id differs from the id the author stored, a
subsequent `gate_remove` or `gate_move` addressed by the author's id
leaves the appended gate present and unchanged. -/
theorem c9_remote_gate_added_regenerates_id (env : Env) (s : ClientState)
    (wg : WireGate) (authorId now2 : String)
    (h : env.freshId ≠ authorId) :
    (handleMessage env (.gate_added wg) s).circuit.gates =
      s.circuit.gates ++ [remoteAddedGate env wg] ∧
    (remoteAddedGate env wg).id ≠ authorId ∧
    handleMessage env (.gate_added { wg with id := some authorId }) s =
      handleMessage env (.gate_added { wg with id := none }) s ∧
    remoteAddedGate env wg ∈
      (removeGate authorId now2
        (handleMessage env (.gate_added wg) s).circuit).gates ∧
    remoteAddedGate env wg ∈
      (updateGateQubitStep authorId 9 9 now2
        (handleMessage env (.gate_added wg) s).circuit).gates := by
  refine ⟨rfl, h, rfl, ?_, ?_⟩
  · simp [handleMessage, addGate, removeGate, remoteAddedGate,
      GateInput.withId, bne_iff_ne, h]
  · simp [handleMessage, addGate, updateGateQubitStep, remoteAddedGate,
      GateInput.withId, beq_iff_eq, h]

/-- C9 witness: a replica whose next fresh id is `"aaaaaaa"` receives a
`gate_added` authored under id `"x7k9p2q"`; the stored gate carries
`"aaaaaaa"` and survives removal and move addressed by `"x7k9p2q"`. -/
theorem c9_remote_gate_added_regenerates_id_witness :
    (Env.mk "aaaaaaa" "t1").freshId ≠ "x7k9p2q" ∧
    ((handleMessage (Env.mk "aaaaaaa" "t1")
        (.gate_added { type := .H, qubit := 0, step := 0, id := some "x7k9p2q" })
        sampleState).circuit.gates =
      sampleState.circuit.gates ++
        [remoteAddedGate (Env.mk "aaaaaaa" "t1")
          { type := .H, qubit := 0, step := 0, id := some "x7k9p2q" }] ∧
    (remoteAddedGate (Env.mk "aaaaaaa" "t1")
        { type := .H, qubit := 0, step := 0, id := some "x7k9p2q" }).id ≠
      "x7k9p2q" ∧
    handleMessage (Env.mk "aaaaaaa" "t1")
        (.gate_added { type := .H, qubit := 0, step := 0, id := some "x7k9p2q" })
        sampleState =
      handleMessage (Env.mk "aaaaaaa" "t1")
        (.gate_added { type := .H, qubit := 0, step := 0, id := none })
        sampleState ∧
    remoteAddedGate (Env.mk "aaaaaaa" "t1")
        { type := .H, qubit := 0, step := 0, id := some "x7k9p2q" } ∈
      (removeGate "x7k9p2q" "t2"
        (handleMessage (Env.mk "aaaaaaa" "t1")
          (.gate_added { type := .H, qubit := 0, step := 0, id := some "x7k9p2q" })
          sampleState).circuit).gates ∧
    remoteAddedGate (Env.mk "aaaaaaa" "t1")
        { type := .H, qubit := 0, step := 0, id := some "x7k9p2q" } ∈
      (updateGateQubitStep "x7k9p2q" 9 9 "t2"
        (handleMessage (Env.mk "aaaaaaa" "t1")
          (.gate_added { type := .H, qubit := 0, step := 0, id := some "x7k9p2q" })
          sampleState).circuit).gates) :=
  ⟨by decide, c9_remote_gate_added_regenerates_id (Env.mk "aaaaaaa" "t1")
    sampleState { type := .H, qubit := 0, step := 0, id := some "x7k9p2q" }
    "x7k9p2q" "t2" (by decide)⟩

/-- C5: every effect `handleCellClick` performs is a local circuit-store
mutation — no network send is among them for any click — and the
concrete click on the empty cell (0, 0) with H selected performs
exactly the local `addGate` and nothing more: the corresponding
`gate_add` operation is never sent over the Transport Channel. -/
theorem c5_handleCellClick_applies_locally_never_sends
    (sel : Option GateType) (q st : Int) (gates : List Gate) :
    ((handleCellClick sel q st gates).all (fun e => !e.isSend)) = true ∧
    handleCellClick (some .H) 0 0 [] =
      [.localAddGate { type := .H, qubit := 0, step := 0 }] := by
  constructor
  · unfold handleCellClick
    rcases getGateAt gates q st with _ | g
    · rcases sel with _ | t <;> rfl
    · rfl
  · rfl

/-- C8 counterexample: a join rejected for capacity (HTTP 429) and a
join rejected because the room is unknown (HTTP 404) surface the exact
same client error — `joinRoom` throws and the panel shows
"Room not found" for every non-ok response, so the surfaced error does
not identify which failure occurred. -/
theorem c8_join_failures_indistinguishable_counterexample :
    handleJoinSurfacedError { status := 429, body := "capacity exceeded" } =
      handleJoinSurfacedError { status := 404, body := "room not found" } ∧
    handleJoinSurfacedError { status := 429, body := "capacity exceeded" } =
      some "Room not found" ∧
    joinRoomError { status := 429, body := "capacity exceeded" } =
      some "Room not found" := by
  decide

/-- C8 amended: every failing join response — whatever its status or
body — is surfaced as the single error "Room not found", by `joinRoom`'s
throw and by the panel's catch block alike. -/
theorem c8_amended_all_join_failures_surface_not_found
    (resp : HttpResponse) (h : respOk resp = false) :
    joinRoomError resp = some "Room not found" ∧
    handleJoinSurfacedError resp = some "Room not found" := by
  simp [joinRoomError, handleJoinSurfacedError, h]

/-- C8 amended witness: a 503 response surfaces as "Room not found". -/
theorem c8_amended_all_join_failures_surface_not_found_witness :
    respOk { status := 503, body := "service unavailable" } = false ∧
    (joinRoomError { status := 503, body := "service unavailable" } =
        some "Room not found" ∧
      handleJoinSurfacedError { status := 503, body := "service unavailable" } =
        some "Room not found") :=
  ⟨by decide, c8_amended_all_join_failures_surface_not_found
    { status := 503, body := "service unavailable" } (by decide)⟩

end Quanta
